import Mathlib

/-!
Shallow embedding of the Habit-Tracker backend's gamification and
recommendation core (gamification_service.py, ai_service.py,
routes/routes.py, model.py), together with theorems settling the
specification claims about it.

Timestamps (`datetime` values) are modelled as integer seconds; taking the
calendar date of a timestamp (`datetime.date()`) is floor division by
86400, and `timedelta(days = n)` is `n * 86400` seconds.  Python `//` on
integers is floor division, which for the positive divisors used here
agrees with Lean's `Int` division.
-/

/-- A row of `habit_check_ins` (model.py `HabitCheckIn`): the fields the
core logic reads. `check_in_date` is a timestamp in seconds. -/
structure CheckIn where
  check_in_date : Int
  points_earned : Int := 10
deriving DecidableEq, Repr

/-- Calendar date (as a day number) of a timestamp: `datetime.date()`. -/
def dateOf (ts : Int) : Int := ts / 86400

/-- Ordering used by `sorted(checkins, key=lambda x: x.check_in_date,
reverse=True)`: `a` may come before `b` when its timestamp is at least
`b`'s. -/
def tsDesc (a b : CheckIn) : Prop := b.check_in_date ≤ a.check_in_date

instance : DecidableRel tsDesc := fun a b => Int.decLe _ _

instance : IsTotal CheckIn tsDesc := ⟨fun x y => le_total y.check_in_date x.check_in_date⟩

instance : IsTrans CheckIn tsDesc := ⟨fun _ _ _ h h' => le_trans h' h⟩

/-- Descending sort of check-ins by timestamp, modelling
`sorted(checkins, key=lambda x: x.check_in_date, reverse=True)`. -/
def sortDesc (l : List CheckIn) : List CheckIn := List.insertionSort tsDesc l

/-- The `for checkin in sorted_checkins: ... else break` loop of
`GamificationService._calculate_streak`: `streak` is the accumulator, and
the loop breaks at the first check-in whose date is not the expected date
`current_date - streak`. -/
def streakAux (current_date : Int) : Nat → List CheckIn → Nat
  | streak, [] => streak
  | streak, checkin :: rest =>
      if dateOf checkin.check_in_date = current_date - (streak : Int) then
        streakAux current_date (streak + 1) rest
      else
        streak

/-- `GamificationService._calculate_streak(checkins)`, with
`datetime.utcnow().date()` passed in as `current_date`. -/
def calculate_streak (current_date : Int) (checkins : List CheckIn) : Nat :=
  if checkins = [] then 0
  else streakAux current_date 0 (sortDesc checkins)

/-- `AIRecommendationService._calculate_current_streak`: textually the same
algorithm as `GamificationService._calculate_streak`. -/
def calculate_current_streak (current_date : Int) (checkins : List CheckIn) : Nat :=
  if checkins = [] then 0
  else streakAux current_date 0 (sortDesc checkins)

/-- Same loop as `streakAux`, on the list of calendar dates alone. -/
def streakAuxD (current_date : Int) : Nat → List Int → Nat
  | streak, [] => streak
  | streak, d :: rest =>
      if d = current_date - (streak : Int) then
        streakAuxD current_date (streak + 1) rest
      else
        streak

/-- Calendar dates of a list of check-ins. -/
def datesOf (l : List CheckIn) : List Int := l.map (fun c => dateOf c.check_in_date)

/-- A row of `habits` (model.py `Habit`): the fields the core logic reads. -/
structure Habit where
  id : Nat
  user_id : Nat
  is_active : Bool
  points_per_completion : Int
  check_ins : List CheckIn
deriving DecidableEq, Repr

/-- The check-in window used by `get_user_analytics`: only check-ins with
`check_in_date >= thirty_days_ago`, where `thirty_days_ago = utcnow() -
timedelta(days=30)`. -/
def recentCheckins (nowTs : Int) (checkins : List CheckIn) : List CheckIn :=
  checkins.filter (fun c => nowTs - 30 * 86400 ≤ c.check_in_date)

/-- Per-habit streak as computed inside `get_user_analytics`: the streak of
the habit's check-ins restricted to the last 30 days. -/
def analyticsStreak (nowTs : Int) (checkins : List CheckIn) : Nat :=
  calculate_current_streak (dateOf nowTs) (recentCheckins nowTs checkins)

/-- The `active_streaks` list built by `get_user_analytics` over the user's
active habits. -/
def active_streaks (nowTs : Int) (habits : List Habit) : List Nat :=
  (habits.filter (fun h => h.is_active)).map (fun h => analyticsStreak nowTs h.check_ins)

/-- The `best_streak` field of `get_user_analytics`:
`max(active_streaks) if active_streaks else 0`. -/
def best_streak (nowTs : Int) (habits : List Habit) : Nat :=
  (active_streaks nowTs habits).foldl max 0

/-- The `average_streak` field of `get_user_analytics`:
`sum(active_streaks) / len(active_streaks) if active_streaks else 0`. -/
def average_streak (nowTs : Int) (habits : List Habit) : ℚ :=
  let l := active_streaks nowTs habits
  if l = [] then 0 else (l.sum : ℚ) / (l.length : ℚ)

/-- The analytics summary produced by `get_user_analytics` and consumed by
the prompt builder and the fallback templates. Python floats are modelled
as rationals. -/
structure UserAnalytics where
  total_habits : Nat
  average_streak : Rat
  average_completion_rate : Rat
  best_streak : Nat
  categories : List (String × Nat)
  struggling_habits : List Nat
  strong_habits : List Nat
deriving DecidableEq, Repr

/-- A row of `ai_recommendations` (model.py `AIRecommendation`): the fields
`generate_recommendation` writes. -/
structure AIRecommendation where
  user_id : Nat
  recommendation_type : String
  title : String
  content : String
  source_ai : String
  priority : Nat
  expires_at : Int
deriving DecidableEq, Repr

/-- Python truthiness of an `Optional[str]`: `None` and the empty string
are falsy. -/
def pyTruthy : Option String → Bool
  | none => false
  | some s => !(s == "")

/-- Python `"{:.0f}".format` on a float, modelled on rationals by rounding
to the nearest integer (ties are irrelevant to every claim proved here). -/
def formatRat0 (q : Rat) : String := toString (round q)

/-- Python `str.title()`: each alphabetic character is uppercased when it
follows a non-alphabetic character and lowercased otherwise. -/
def pyTitleAux : Bool → List Char → List Char
  | _, [] => []
  | prevAlpha, c :: rest =>
      (if c.isAlpha then (if prevAlpha then c.toLower else c.toUpper) else c)
        :: pyTitleAux c.isAlpha rest

/-- Python `str.title()` on a whole string. -/
def pyTitle (s : String) : String := ⟨pyTitleAux false s.data⟩

/-- `AIRecommendationService._get_fallback_recommendation`: deterministic
template text chosen by `rec_type` and the analytics summary, returned when
the external AI call produced no text. -/
def get_fallback_recommendation (analytics : UserAnalytics) (rec_type : String) : String :=
  if rec_type = "motivation" then
    if 70 < analytics.average_completion_rate then
      "Excellent work! You\x27re maintaining a " ++ formatRat0 analytics.average_completion_rate ++ "% completion rate across " ++ toString analytics.total_habits ++ " habits. Your consistency is building strong foundations for lasting change. Keep up the momentum!"
    else
      "You\x27ve taken the first step by tracking " ++ toString analytics.total_habits ++ " habits. Remember, building habits takes time. Focus on completing one habit at a time, and celebrate small wins. Progress, not perfection!"
  else if rec_type = "improvement" then
    if 0 < analytics.struggling_habits.length then
      "Consider focusing on your top performing habits first. You have " ++ toString analytics.strong_habits.length ++ " habits with high completion rates. Build on these successes before adding new ones. Try setting reminders or habit stacking to improve struggling habits."
    else
      "Great foundation! To level up, try the \x272-minute rule\x27 - make habits so easy they take less than 2 minutes to start. This reduces resistance and builds momentum. Also, track your \x27why\x27 - write down the reason behind each habit."
  else if rec_type = "habit_suggestion" then
    let top_category :=
      match analytics.categories with
      | [] => "general"
      | p :: rest => (rest.foldl (fun acc q => if acc.2 < q.2 then q else acc) p).1
    "Based on your focus on " ++ top_category ++ ", consider adding: 1) A reflection habit - spend 5 minutes journaling about what\x27s working. 2) A preparation habit - plan tomorrow\x27s tasks each evening. Small habits that support your existing routines compound results!"
  else
    "Keep tracking your habits consistently. Small daily actions lead to remarkable long-term results!"

/-- `AIRecommendationService.generate_recommendation`, with the analytics
summary and the outcome of the single external AI call passed in
(`gemini_response` is the value of `get_gemini_recommendation`, which
catches every provider error and returns `None`). -/
def generate_recommendation (user_id : Nat) (recommendation_type : String)
    (analytics : UserAnalytics) (gemini_response : Option String) (nowTs : Int) :
    Option AIRecommendation :=
  let pair : Option String × String :=
    if pyTruthy gemini_response then (gemini_response, "gemini")
    else (some (get_fallback_recommendation analytics recommendation_type), "system")
  match pair with
  | (some content, source_ai) =>
      if content = "" then none
      else
        some ⟨user_id, recommendation_type,
          pyTitle (recommendation_type.replace "_" " "),
          content, source_ai, 1, nowTs + 7 * 86400⟩
  | (none, _) => none

/-- A row of `users` (model.py `User`): the fields the gamification core
reads and writes. -/
structure User where
  id : Nat
  total_points : Int
  level : Int
deriving DecidableEq, Repr

/-- The badge type enumeration (model.py `BadgeType`). -/
inductive BadgeType where
  | streak_starter
  | week_warrior
  | month_master
  | habit_creator
  | consistency_king
  | early_bird
  | night_owl
deriving DecidableEq, Repr

/-- A row of `user_badges` (model.py `UserBadge`): the fields the badge
evaluator writes. -/
structure UserBadge where
  user_id : Nat
  badge_type : BadgeType
  badge_name : String
  badge_description : String
deriving DecidableEq, Repr

/-- The per-user database slice the gamification flow touches: the current
user, the user's habits with their check-ins, and the user's badges. -/
structure AppState where
  user : User
  habits : List Habit
  badges : List UserBadge
deriving DecidableEq, Repr

/-- `GamificationService.award_points(user_id, points, db)`: looks the user
up; when found, adds the points and recomputes the level as
`total_points // 1000 + 1`; a missing user is a silent no-op. -/
def award_points (st : AppState) (user_id : Nat) (points : Int) : AppState :=
  if st.user.id = user_id then
    let tp := st.user.total_points + points
    { st with user := { st.user with total_points := tp, level := tp / 1000 + 1 } }
  else st

/-- The set of badge types the user already holds, as collected at the top
of `check_and_award_badges`. -/
def heldTypes (badges : List UserBadge) : List BadgeType :=
  badges.map (fun b => b.badge_type)

/-- The `max_streak` loop of `_check_streak_badges`: the maximum current
streak over the user's active habits, starting from 0. -/
def max_streak (nowTs : Int) (habits : List Habit) : Nat :=
  (habits.filter (fun h => h.is_active)).foldl
    (fun m h => max m (calculate_streak (dateOf nowTs) h.check_ins)) 0

/-- `GamificationService._check_streak_badges`: the tiered
`if / elif / elif` chain over the maximum active streak. -/
def check_streak_badges (user_id : Nat) (nowTs : Int) (habits : List Habit)
    (existing_badges : List BadgeType) : List UserBadge :=
  if 30 ≤ max_streak nowTs habits ∧ BadgeType.month_master ∉ existing_badges then
    [⟨user_id, BadgeType.month_master, "Month Master",
      "Maintained a habit for 30 consecutive days!"⟩]
  else if 7 ≤ max_streak nowTs habits ∧ BadgeType.week_warrior ∉ existing_badges then
    [⟨user_id, BadgeType.week_warrior, "Week Warrior",
      "Maintained a habit for 7 consecutive days!"⟩]
  else if 3 ≤ max_streak nowTs habits ∧ BadgeType.streak_starter ∉ existing_badges then
    [⟨user_id, BadgeType.streak_starter, "Streak Starter",
      "Started your first 3-day streak!"⟩]
  else []

/-- `GamificationService._check_creation_badges`: counts all the user's
habits regardless of active status. -/
def check_creation_badges (user_id : Nat) (habits : List Habit)
    (existing_badges : List BadgeType) : List UserBadge :=
  if 5 ≤ habits.length ∧ BadgeType.habit_creator ∉ existing_badges then
    [⟨user_id, BadgeType.habit_creator, "Habit Creator",
      "Created 5 different habits!"⟩]
  else []

/-- Numerator of the consistency rate: the count of check-ins in the last
30 days joined through `Habit` on `Habit.user_id == user_id` alone — the
query in `_check_consistency_badges` does NOT filter on `is_active`, so
check-ins of inactive habits are counted too. -/
def total_checkins_30d (nowTs : Int) (habits : List Habit) : Nat :=
  (habits.map
    (fun h => (h.check_ins.filter
      (fun c => nowTs - 30 * 86400 ≤ c.check_in_date)).length)).sum

/-- Denominator of the consistency rate: `len(habits) * 30` over the active
habits only. -/
def total_expected (habits : List Habit) : Nat :=
  (habits.filter (fun h => h.is_active)).length * 30

/-- The `completion_rate` computed by `_check_consistency_badges`:
`(total_checkins / total_expected) * 100 if total_expected > 0 else 0`. -/
def completion_rate_30d (nowTs : Int) (habits : List Habit) : Rat :=
  if 0 < total_expected habits then
    (total_checkins_30d nowTs habits : Rat) / (total_expected habits : Rat) * 100
  else 0

/-- `GamificationService._check_consistency_badges`: guarded by the user
having at least one active habit. -/
def check_consistency_badges (user_id : Nat) (nowTs : Int) (habits : List Habit)
    (existing_badges : List BadgeType) : List UserBadge :=
  if habits.filter (fun h => h.is_active) ≠ [] then
    if 90 ≤ completion_rate_30d nowTs habits ∧
        BadgeType.consistency_king ∉ existing_badges then
      [⟨user_id, BadgeType.consistency_king, "Consistency King",
        "Achieved 90% completion rate for 30 days!"⟩]
    else []
  else []

/-- The `newly_awarded` list of `check_and_award_badges`: the three rule
families evaluated against the badge types held on entry. -/
def newly_awarded (st : AppState) (nowTs : Int) : List UserBadge :=
  check_streak_badges st.user.id nowTs st.habits (heldTypes st.badges)
    ++ check_creation_badges st.user.id st.habits (heldTypes st.badges)
    ++ check_consistency_badges st.user.id nowTs st.habits (heldTypes st.badges)

/-- `GamificationService.check_and_award_badges`: returns the newly awarded
badges and persists them onto the user's badge list. -/
def check_and_award_badges (st : AppState) (nowTs : Int) :
    List UserBadge × AppState :=
  (newly_awarded st nowTs,
   { st with badges := st.badges ++ newly_awarded st nowTs })

/-- Example user state: one active habit with check-ins on the seven
consecutive days ending on day 7 (now = timestamp 7 * 86400), no badges. -/
def sevenDayHabit : Habit :=
  ⟨1, 1, true, 10, [⟨7 * 86400, 10⟩, ⟨6 * 86400, 10⟩, ⟨5 * 86400, 10⟩,
    ⟨4 * 86400, 10⟩, ⟨3 * 86400, 10⟩, ⟨2 * 86400, 10⟩, ⟨86400, 10⟩]⟩

/-- Example app state holding `sevenDayHabit` and no badges. -/
def sevenDayState : AppState := ⟨⟨1, 0, 1⟩, [sevenDayHabit], []⟩

/-- The Week Warrior badge instance awarded to user 1. -/
def wwBadge1 : UserBadge :=
  ⟨1, BadgeType.week_warrior, "Week Warrior",
    "Maintained a habit for 7 consecutive days!"⟩

/-- The Streak Starter badge instance awarded to user 1. -/
def ssBadge1 : UserBadge :=
  ⟨1, BadgeType.streak_starter, "Streak Starter",
    "Started your first 3-day streak!"⟩

/-- Completion rate as claim C8 words it — "over the user's active habits":
both the check-in count and the expected count range over active habits
only. Stated for comparison with `completion_rate_30d`, whose numerator the
code computes over ALL the user's habits. -/
def completion_rate_30d_active_only (nowTs : Int) (habits : List Habit) : Rat :=
  let active := habits.filter (fun h => h.is_active)
  if 0 < active.length * 30 then
    ((active.map
        (fun h => (h.check_ins.filter
          (fun c => nowTs - 30 * 86400 ≤ c.check_in_date)).length)).sum : Rat)
      / ((active.length * 30 : Nat) : Rat) * 100
  else 0

/-- Example habit list: one active habit with no check-ins, one inactive
habit with 28 check-ins during the last 30 days (now = day 30). -/
def mixedHabits : List Habit :=
  [⟨1, 1, true, 10, []⟩,
   ⟨2, 1, false, 10,
    (List.range 28).map (fun i => ⟨((i : Int) + 1) * 86400, 10⟩)⟩]

/-- An HTTP error as raised by `HTTPException(status_code, detail)`. -/
structure HttpError where
  status_code : Nat
  detail : String
deriving DecidableEq, Repr

/-- The `POST /check-in/{habit_id}` handler `mark_habit_as_done` in
routes/routes.py: habit lookup scoped to the current user, same-day
duplicate guard, streak-bonus point computation over the check-ins as they
were before today's check-in, check-in insertion, point award, and badge
evaluation. Returns the updated state and `points_earned`. -/
def mark_habit_as_done (st : AppState) (habit_id : Nat) (nowTs : Int) :
    Except HttpError (AppState × Int) :=
  match st.habits.find? (fun h => h.id == habit_id && h.user_id == st.user.id) with
  | none => .error ⟨404, "Habit not found"⟩
  | some habit =>
    if habit.check_ins.any (fun ci => dateOf ci.check_in_date == dateOf nowTs) then
      .error ⟨400, "Already checked in today for this habit"⟩
    else
      let current_streak := calculate_streak (dateOf nowTs) habit.check_ins
      let streak_bonus := min (current_streak / 7) 5 * 5
      let points_earned := habit.points_per_completion + (streak_bonus : Int)
      let st1 : AppState := { st with habits := st.habits.map (fun h =>
        if h.id = habit.id then
          { h with check_ins := h.check_ins ++ [⟨nowTs, points_earned⟩] }
        else h) }
      let st2 := award_points st1 st.user.id points_earned
      .ok ((check_and_award_badges st2 nowTs).2, points_earned)

/-- State as observed by the caller after the handler: a raised error
leaves the database untouched. -/
def resultState (st : AppState) (r : Except HttpError (AppState × Int)) :
    AppState :=
  match r with
  | .ok (st2, _) => st2
  | .error _ => st

theorem calculate_current_streak_eq :
    calculate_current_streak = calculate_streak := rfl

theorem streakAux_eq_streakAuxD (current_date : Int) :
    ∀ (s : Nat) (l : List CheckIn),
      streakAux current_date s l = streakAuxD current_date s (datesOf l) := by
  intro s l
  induction l generalizing s with
  | nil => rfl
  | cons c rest ih =>
      simp only [streakAux, streakAuxD, datesOf, List.map_cons]
      split <;> simp [datesOf] at ih ⊢ <;> apply ih

theorem datesOf_sortDesc_perm (l : List CheckIn) :
    (datesOf (sortDesc l)).Perm (datesOf l) :=
  (List.perm_insertionSort tsDesc l).map _

theorem datesOf_sortDesc_sorted (l : List CheckIn) :
    (datesOf (sortDesc l)).Sorted (· ≥ ·) := by
  have h := List.sorted_insertionSort tsDesc l
  rw [datesOf, List.Sorted, List.pairwise_map]
  exact h.imp (fun hab => Int.ediv_le_ediv (by norm_num) hab)

/-- The scan over the sorted check-ins equals the scan over the unique
descending arrangement of their dates. -/
theorem calculate_streak_eq_of_perm (current_date : Int)
    (l : List CheckIn) (ds : List Int)
    (hne : l ≠ []) (hperm : (datesOf l).Perm ds) (hsorted : ds.Sorted (· ≥ ·)) :
    calculate_streak current_date l = streakAuxD current_date 0 ds := by
  have hkey : datesOf (sortDesc l) = ds :=
    List.eq_of_perm_of_sorted ((datesOf_sortDesc_perm l).trans hperm)
      (datesOf_sortDesc_sorted l) hsorted
  rw [calculate_streak, if_neg hne, streakAux_eq_streakAuxD, hkey]

theorem streakAuxD_three (d : Int) : streakAuxD d 0 [d, d - 1, d - 2] = 3 := by
  norm_num [streakAuxD]

theorem streakAuxD_gap (d : Int) : streakAuxD d 0 [d, d - 2] = 1 := by
  norm_num [streakAuxD]

theorem streakAuxD_dup (d : Int) : streakAuxD d 0 [d, d, d - 1] = 1 := by
  norm_num [streakAuxD]
  omega

theorem perm_ne_nil {l : List CheckIn} {c : CheckIn} {r : List CheckIn}
    (h : l.Perm (c :: r)) : l ≠ [] := by
  intro he
  subst he
  exact (List.cons_ne_nil c r) (h.symm.eq_nil)

/-- C1: over one habit's check-in set relative to the current date `d`, the
streak of the empty set is 0; a set with check-ins dated `d`, `d-1`, `d-2`
(in any order) has streak 3; and a set with check-ins dated `d` and `d-2`
but none on `d-1` has streak 1 — the backward scan from today stops at the
first gap. -/
theorem c1_streak_base_cases (d : Int) (c0 c1 c2 g0 g2 : CheckIn)
    (l3 l2 : List CheckIn)
    (h0 : dateOf c0.check_in_date = d)
    (h1 : dateOf c1.check_in_date = d - 1)
    (h2 : dateOf c2.check_in_date = d - 2)
    (hl3 : l3.Perm [c0, c1, c2])
    (hg0 : dateOf g0.check_in_date = d)
    (hg2 : dateOf g2.check_in_date = d - 2)
    (hl2 : l2.Perm [g0, g2]) :
    calculate_streak d [] = 0 ∧
    calculate_streak d l3 = 3 ∧
    calculate_streak d l2 = 1 := by
  refine ⟨rfl, ?_, ?_⟩
  · rw [calculate_streak_eq_of_perm d l3 [d, d - 1, d - 2] (perm_ne_nil hl3)
      ?_ ?_]
    · exact streakAuxD_three d
    · have := hl3.map (fun c => dateOf c.check_in_date)
      simpa [datesOf, h0, h1, h2] using this
    · simp only [List.sorted_cons, List.mem_cons]
      norm_num
      omega
  · rw [calculate_streak_eq_of_perm d l2 [d, d - 2] (perm_ne_nil hl2) ?_ ?_]
    · exact streakAuxD_gap d
    · have := hl2.map (fun c => dateOf c.check_in_date)
      simpa [datesOf, hg0, hg2] using this
    · simp only [List.sorted_cons, List.mem_cons]
      norm_num

theorem c1_streak_base_cases_witness :
    calculate_streak 2 [] = 0 ∧
    calculate_streak 2 [⟨86400, 10⟩, ⟨0, 10⟩, ⟨172800, 10⟩] = 3 ∧
    calculate_streak 2 [⟨3, 10⟩, ⟨172805, 10⟩] = 1 :=
  c1_streak_base_cases 2 ⟨172800, 10⟩ ⟨86400, 10⟩ ⟨0, 10⟩ ⟨172805, 10⟩ ⟨3, 10⟩
    [⟨86400, 10⟩, ⟨0, 10⟩, ⟨172800, 10⟩] [⟨3, 10⟩, ⟨172805, 10⟩]
    (by decide) (by decide) (by decide) (by decide) (by decide) (by decide)
    (by decide)

/-- C7 counterexample: two check-ins dated today (day 1, timestamps 86400
and 86460) plus one dated yesterday (timestamp 60) yield streak 1, not 2 —
the scan breaks at the duplicate rather than skipping it. -/
theorem c7_counterexample :
    calculate_streak 1 [⟨86400, 10⟩, ⟨86460, 10⟩, ⟨60, 10⟩] = 1 ∧
    calculate_streak 1 [⟨86400, 10⟩, ⟨86460, 10⟩, ⟨60, 10⟩] ≠ 2 := by
  decide

/-- C7 amended: a duplicate check-in on the same calendar date breaks the
backward scan rather than being skipped: for any set holding two check-ins
dated today and one dated yesterday, the streak is 1 (the duplicate stops
the streak; it neither extends it nor counts as one day together with
yesterday). -/
theorem c7_duplicate_breaks_scan (d : Int) (a b y : CheckIn) (l : List CheckIn)
    (ha : dateOf a.check_in_date = d)
    (hb : dateOf b.check_in_date = d)
    (hy : dateOf y.check_in_date = d - 1)
    (hl : l.Perm [a, b, y]) :
    calculate_streak d l = 1 := by
  rw [calculate_streak_eq_of_perm d l [d, d, d - 1] (perm_ne_nil hl) ?_ ?_]
  · exact streakAuxD_dup d
  · have := hl.map (fun c => dateOf c.check_in_date)
    simpa [datesOf, ha, hb, hy] using this
  · simp only [List.sorted_cons, List.mem_cons]
    norm_num

theorem c7_duplicate_breaks_scan_witness :
    calculate_streak 1 [⟨86460, 10⟩, ⟨60, 10⟩, ⟨86400, 10⟩] = 1 :=
  c7_duplicate_breaks_scan 1 ⟨86400, 10⟩ ⟨86460, 10⟩ ⟨60, 10⟩
    [⟨86460, 10⟩, ⟨60, 10⟩, ⟨86400, 10⟩]
    (by decide) (by decide) (by decide) (by decide)

theorem streakAuxD_le_31 (today : Int) :
    ∀ (l : List Int) (s : Nat), (∀ x ∈ l, today - 30 ≤ x) → s ≤ 31 →
      streakAuxD today s l ≤ 31 := by
  intro l
  induction l with
  | nil => intro s _ hs; simpa [streakAuxD] using hs
  | cons d rest ih =>
      intro s hdates hs
      simp only [streakAuxD]
      split
      · rename_i heq
        have hd : today - 30 ≤ d := hdates d (List.mem_cons_self d rest)
        have hs30 : s ≤ 30 := by omega
        exact ih (s + 1) (fun x hx => hdates x (List.mem_cons_of_mem d hx)) (by omega)
      · exact hs

theorem calculate_streak_le_31 (today : Int) (l : List CheckIn)
    (h : ∀ c ∈ l, today - 30 ≤ dateOf c.check_in_date) :
    calculate_streak today l ≤ 31 := by
  by_cases hne : l = []
  · simp [calculate_streak, hne]
  · rw [calculate_streak, if_neg hne, streakAux_eq_streakAuxD]
    apply streakAuxD_le_31
    · intro x hx
      simp only [datesOf, List.mem_map] at hx
      obtain ⟨c, hc, rfl⟩ := hx
      exact h c ((List.perm_insertionSort tsDesc l).mem_iff.mp hc)
    · omega

theorem analyticsStreak_le_31 (nowTs : Int) (checkins : List CheckIn) :
    analyticsStreak nowTs checkins ≤ 31 := by
  rw [analyticsStreak, calculate_current_streak_eq]
  apply calculate_streak_le_31
  intro c hc
  simp only [recentCheckins, List.mem_filter, decide_eq_true_eq] at hc
  have := hc.2
  simp only [dateOf]
  omega

theorem foldl_max_le_31 : ∀ (l : List Nat) (acc : Nat), acc ≤ 31 →
    (∀ x ∈ l, x ≤ 31) → l.foldl max acc ≤ 31 := by
  intro l
  induction l with
  | nil => intro acc ha _; simpa using ha
  | cons x rest ih =>
      intro acc ha hall
      simp only [List.foldl_cons]
      exact ih (max acc x)
        (by have := hall x (List.mem_cons_self x rest); omega)
        (fun y hy => hall y (List.mem_cons_of_mem x hy))

/-- C10: every per-habit streak used by the analytics aggregator is computed
from only the last 30 days of check-ins, so it is at most 31, and hence the
`best_streak` and `average_streak` fields of its output are at most 31,
regardless of the full check-in history. -/
theorem c10_analytics_streaks_le_31 (nowTs : Int) (habits : List Habit) :
    (∀ s ∈ active_streaks nowTs habits, s ≤ 31) ∧
    best_streak nowTs habits ≤ 31 ∧
    average_streak nowTs habits ≤ 31 := by
  have hall : ∀ s ∈ active_streaks nowTs habits, s ≤ 31 := by
    intro s hs
    simp only [active_streaks, List.mem_map] at hs
    obtain ⟨h, _, rfl⟩ := hs
    exact analyticsStreak_le_31 nowTs h.check_ins
  refine ⟨hall, foldl_max_le_31 _ 0 (by omega) hall, ?_⟩
  rw [average_streak]
  set l := active_streaks nowTs habits with hl
  by_cases hne : l = []
  · simp [hne]
  · simp only [hne, if_neg, ite_false]
    have hlen : (0 : ℚ) < (l.length : ℚ) := by
      have : 0 < l.length := List.length_pos.mpr hne
      exact_mod_cast this
    rw [div_le_iff hlen]
    have hsum : l.sum ≤ l.length * 31 := by
      have := List.sum_le_card_nsmul l 31 hall
      simpa [smul_eq_mul, Nat.mul_comm] using this
    calc (l.sum : ℚ) ≤ ((l.length * 31 : Nat) : ℚ) := by exact_mod_cast hsum
      _ = 31 * (l.length : ℚ) := by push_cast; ring

theorem c10_analytics_streaks_le_31_witness :
    (1 : Nat) ∈ active_streaks 0 [⟨1, 1, true, 10, [⟨0, 10⟩]⟩] ∧ (1 : Nat) ≤ 31 :=
  ⟨by decide,
    (c10_analytics_streaks_le_31 0 [⟨1, 1, true, 10, [⟨0, 10⟩]⟩]).1 1 (by decide)⟩

theorem append_ne_left (a b : String) (h : a ≠ "") : a ++ b ≠ "" := by
  intro hab
  apply h
  have hlen := congrArg String.length hab
  rw [String.length_append] at hlen
  have ha : a.length = 0 := by
    have : ("" : String).length = 0 := rfl
    omega
  cases a with
  | mk data =>
      cases data with
      | nil => rfl
      | cons c cs => simp [String.length, List.length] at ha

theorem fallback_ne_empty (analytics : UserAnalytics) (rec_type : String) :
    get_fallback_recommendation analytics rec_type ≠ "" := by
  rw [get_fallback_recommendation]
  split_ifs <;>
    first
      | (repeat apply append_ne_left); decide
      | decide

/-- C2: for every user state and every recommendation type among
habit_suggestion, motivation and improvement, if the external AI call
produced no text (it returns `None` on any provider failure, and the empty
string is also falsy), `generate_recommendation` still returns a
recommendation whose content is non-empty, whose `source_ai` is "system",
and whose `expires_at` is creation time plus 7 days; it never fails. -/
theorem c2_fallback_recommendation (user_id : Nat) (rec_type : String)
    (analytics : UserAnalytics) (gemini_response : Option String) (nowTs : Int)
    (htype : rec_type = "habit_suggestion" ∨ rec_type = "motivation" ∨
      rec_type = "improvement")
    (hfail : pyTruthy gemini_response = false) :
    ∃ rec : AIRecommendation,
      generate_recommendation user_id rec_type analytics gemini_response nowTs
        = some rec ∧
      rec.content ≠ "" ∧ rec.source_ai = "system" ∧
      rec.expires_at = nowTs + 7 * 86400 := by
  have hne := fallback_ne_empty analytics rec_type
  rw [generate_recommendation]
  rw [hfail]
  simp only [Bool.false_eq_true, if_false]
  rw [if_neg hne]
  exact ⟨_, rfl, hne, rfl, rfl⟩

theorem c2_fallback_recommendation_witness :
    ∃ rec : AIRecommendation,
      generate_recommendation 1 "motivation" ⟨0, 0, 0, 0, [], [], []⟩ none 0
        = some rec ∧
      rec.content ≠ "" ∧ rec.source_ai = "system" ∧
      rec.expires_at = 0 + 7 * 86400 :=
  c2_fallback_recommendation 1 "motivation" ⟨0, 0, 0, 0, [], [], []⟩ none 0
    (Or.inr (Or.inl rfl)) rfl

/-- C3: after `award_points` with non-negative points on an existing user,
`level = total_points // 1000 + 1` holds and `total_points` has not
decreased; in particular a resulting total of 999 gives level 1 and a
resulting total of 1000 gives level 2. -/
theorem c3_award_points_invariant (st : AppState) (user_id : Nat) (points : Int)
    (hid : st.user.id = user_id) (hpos : 0 ≤ points) :
    ((award_points st user_id points).user.level =
      (award_points st user_id points).user.total_points / 1000 + 1) ∧
    st.user.total_points ≤ (award_points st user_id points).user.total_points ∧
    ((award_points st user_id points).user.total_points = 999 →
      (award_points st user_id points).user.level = 1) ∧
    ((award_points st user_id points).user.total_points = 1000 →
      (award_points st user_id points).user.level = 2) := by
  rw [award_points, if_pos hid]
  dsimp only
  refine ⟨rfl, by omega, ?_, ?_⟩ <;> (intro h; omega)

theorem c3_award_points_invariant_witness :
    ((award_points ⟨⟨1, 980, 1⟩, [], []⟩ 1 19).user.level =
      (award_points ⟨⟨1, 980, 1⟩, [], []⟩ 1 19).user.total_points / 1000 + 1) ∧
    (980 : Int) ≤ (award_points ⟨⟨1, 980, 1⟩, [], []⟩ 1 19).user.total_points ∧
    ((award_points ⟨⟨1, 980, 1⟩, [], []⟩ 1 19).user.total_points = 999 →
      (award_points ⟨⟨1, 980, 1⟩, [], []⟩ 1 19).user.level = 1) ∧
    ((award_points ⟨⟨1, 980, 1⟩, [], []⟩ 1 19).user.total_points = 1000 →
      (award_points ⟨⟨1, 980, 1⟩, [], []⟩ 1 19).user.level = 2) :=
  c3_award_points_invariant ⟨⟨1, 980, 1⟩, [], []⟩ 1 19 rfl (by decide)

/-- C6: on every invocation, the streak family awards at most one badge,
only streak-family types, and the single highest tier that both qualifies
against the maximum active streak and is not yet held: MONTH_MASTER when
the max streak is at least 30 and MONTH_MASTER is unheld; else WEEK_WARRIOR
when at least 7 and unheld; else STREAK_STARTER when at least 3 and
unheld. -/
theorem c6_streak_family_tiered (user_id : Nat) (nowTs : Int)
    (habits : List Habit) (existing : List BadgeType) :
    (check_streak_badges user_id nowTs habits existing).length ≤ 1 ∧
    (∀ b ∈ check_streak_badges user_id nowTs habits existing,
      b.badge_type = BadgeType.month_master ∨
      b.badge_type = BadgeType.week_warrior ∨
      b.badge_type = BadgeType.streak_starter) ∧
    ((∃ b ∈ check_streak_badges user_id nowTs habits existing,
        b.badge_type = BadgeType.month_master) ↔
      (30 ≤ max_streak nowTs habits ∧ BadgeType.month_master ∉ existing)) ∧
    ((∃ b ∈ check_streak_badges user_id nowTs habits existing,
        b.badge_type = BadgeType.week_warrior) ↔
      (¬(30 ≤ max_streak nowTs habits ∧ BadgeType.month_master ∉ existing) ∧
        7 ≤ max_streak nowTs habits ∧ BadgeType.week_warrior ∉ existing)) ∧
    ((∃ b ∈ check_streak_badges user_id nowTs habits existing,
        b.badge_type = BadgeType.streak_starter) ↔
      (¬(30 ≤ max_streak nowTs habits ∧ BadgeType.month_master ∉ existing) ∧
        ¬(7 ≤ max_streak nowTs habits ∧ BadgeType.week_warrior ∉ existing) ∧
        3 ≤ max_streak nowTs habits ∧ BadgeType.streak_starter ∉ existing)) := by
  rw [check_streak_badges]
  split_ifs with h1 h2 h3 <;> simp_all

theorem c6_streak_family_tiered_witness :
    (7 : Nat) ≤ max_streak (7 * 86400)
      [⟨1, 1, true, 10, [⟨7 * 86400, 10⟩, ⟨6 * 86400, 10⟩, ⟨5 * 86400, 10⟩,
        ⟨4 * 86400, 10⟩, ⟨3 * 86400, 10⟩, ⟨2 * 86400, 10⟩, ⟨86400, 10⟩]⟩] ∧
    (∃ b ∈ check_streak_badges 1 (7 * 86400)
      [⟨1, 1, true, 10, [⟨7 * 86400, 10⟩, ⟨6 * 86400, 10⟩, ⟨5 * 86400, 10⟩,
        ⟨4 * 86400, 10⟩, ⟨3 * 86400, 10⟩, ⟨2 * 86400, 10⟩, ⟨86400, 10⟩]⟩] [],
      b.badge_type = BadgeType.week_warrior) :=
  ⟨by decide,
    ((c6_streak_family_tiered 1 (7 * 86400)
      [⟨1, 1, true, 10, [⟨7 * 86400, 10⟩, ⟨6 * 86400, 10⟩, ⟨5 * 86400, 10⟩,
        ⟨4 * 86400, 10⟩, ⟨3 * 86400, 10⟩, ⟨2 * 86400, 10⟩, ⟨86400, 10⟩]⟩]
      []).2.2.2.1).mpr (by decide)⟩

theorem sevenDay_consistency_empty (ex : List BadgeType) :
    check_consistency_badges 1 (7 * 86400) [sevenDayHabit] ex = [] := by
  have hrate : completion_rate_30d (7 * 86400) [sevenDayHabit]
      = (7 : Rat) / 30 * 100 := by
    rw [completion_rate_30d, if_pos]
    · rw [show total_checkins_30d (7 * 86400) [sevenDayHabit] = 7 from by decide,
        show total_expected [sevenDayHabit] = 30 from by decide]
      norm_num
    · decide
  rw [check_consistency_badges, if_pos (by decide), if_neg]
  rintro ⟨h90, _⟩
  rw [hrate] at h90
  norm_num at h90

theorem sevenDay_first_run :
    check_and_award_badges sevenDayState (7 * 86400)
      = ([wwBadge1], ⟨⟨1, 0, 1⟩, [sevenDayHabit], [wwBadge1]⟩) := by
  have h1 : newly_awarded sevenDayState (7 * 86400) = [wwBadge1] := by
    rw [newly_awarded]
    show check_streak_badges 1 (7 * 86400) [sevenDayHabit] (heldTypes [])
        ++ check_creation_badges 1 [sevenDayHabit] (heldTypes [])
        ++ check_consistency_badges 1 (7 * 86400) [sevenDayHabit] (heldTypes [])
      = [wwBadge1]
    rw [show heldTypes [] = [] from rfl]
    rw [show check_streak_badges 1 (7 * 86400) [sevenDayHabit] [] = [wwBadge1]
        from by decide,
      show check_creation_badges 1 [sevenDayHabit] [] = [] from by decide,
      sevenDay_consistency_empty []]
    rfl
  rw [check_and_award_badges, h1]
  rfl

theorem sevenDay_second_run_newly :
    newly_awarded ⟨⟨1, 0, 1⟩, [sevenDayHabit], [wwBadge1]⟩ (7 * 86400)
      = [ssBadge1] := by
  rw [newly_awarded]
  show check_streak_badges 1 (7 * 86400) [sevenDayHabit] (heldTypes [wwBadge1])
      ++ check_creation_badges 1 [sevenDayHabit] (heldTypes [wwBadge1])
      ++ check_consistency_badges 1 (7 * 86400) [sevenDayHabit]
          (heldTypes [wwBadge1])
    = [ssBadge1]
  rw [show heldTypes [wwBadge1] = [BadgeType.week_warrior] from rfl,
    show check_streak_badges 1 (7 * 86400) [sevenDayHabit]
        [BadgeType.week_warrior] = [ssBadge1] from by decide,
    show check_creation_badges 1 [sevenDayHabit] [BadgeType.week_warrior] = []
      from by decide,
    sevenDay_consistency_empty [BadgeType.week_warrior]]
  rfl

/-- C5 counterexample: a user with one active habit on a 7-day streak and
no badges. The first evaluator run awards WEEK_WARRIOR; the immediate
second run, with no other state change, awards STREAK_STARTER (the `elif`
chain falls through to the next unheld tier), so the second run does not
award zero badges. -/
theorem c5_counterexample :
    (check_and_award_badges
      (check_and_award_badges sevenDayState (7 * 86400)).2
      (7 * 86400)).1 ≠ [] := by
  rw [sevenDay_first_run]
  show (check_and_award_badges ⟨⟨1, 0, 1⟩, [sevenDayHabit], [wwBadge1]⟩
    (7 * 86400)).1 ≠ []
  rw [check_and_award_badges]
  show newly_awarded ⟨⟨1, 0, 1⟩, [sevenDayHabit], [wwBadge1]⟩ (7 * 86400) ≠ []
  rw [sevenDay_second_run_newly]
  simp

/-- C5 amended: awarding a badge type the user already holds is a no-op —
no evaluator invocation ever awards a badge type already held at its start,
so the at-most-one-badge-per-type invariant is preserved; but the evaluator
is not idempotent: an immediate second run with no other state change can
award the next lower streak tier not yet held. -/
theorem c5_no_already_held_award (st : AppState) (nowTs : Int) :
    ∀ b ∈ (check_and_award_badges st nowTs).1,
      b.badge_type ∉ heldTypes st.badges := by
  intro b hb
  rw [check_and_award_badges] at hb
  dsimp only at hb
  rw [newly_awarded, List.mem_append, List.mem_append] at hb
  rcases hb with (hb | hb) | hb
  · rw [check_streak_badges] at hb
    split_ifs at hb with h1 h2 h3 <;>
      simp only [List.mem_singleton, List.not_mem_nil] at hb
    · rw [hb]; exact h1.2
    · rw [hb]; exact h2.2
    · rw [hb]; exact h3.2
  · rw [check_creation_badges] at hb
    split_ifs at hb with h1 <;>
      simp only [List.mem_singleton, List.not_mem_nil] at hb
    rw [hb]; exact h1.2
  · rw [check_consistency_badges] at hb
    split_ifs at hb with h1 h2 <;>
      simp only [List.mem_singleton, List.not_mem_nil] at hb
    rw [hb]; exact h2.2

theorem c5_no_already_held_award_witness :
    (⟨1, BadgeType.week_warrior, "Week Warrior",
        "Maintained a habit for 7 consecutive days!"⟩ : UserBadge) ∈
      (check_and_award_badges
        ⟨⟨1, 0, 1⟩,
         [⟨1, 1, true, 10, [⟨7 * 86400, 10⟩, ⟨6 * 86400, 10⟩, ⟨5 * 86400, 10⟩,
           ⟨4 * 86400, 10⟩, ⟨3 * 86400, 10⟩, ⟨2 * 86400, 10⟩, ⟨86400, 10⟩]⟩],
         []⟩
        (7 * 86400)).1 ∧
    BadgeType.week_warrior ∉ heldTypes ([] : List UserBadge) :=
  ⟨by decide,
    c5_no_already_held_award
      ⟨⟨1, 0, 1⟩,
       [⟨1, 1, true, 10, [⟨7 * 86400, 10⟩, ⟨6 * 86400, 10⟩, ⟨5 * 86400, 10⟩,
         ⟨4 * 86400, 10⟩, ⟨3 * 86400, 10⟩, ⟨2 * 86400, 10⟩, ⟨86400, 10⟩]⟩],
       []⟩
      (7 * 86400)
      ⟨1, BadgeType.week_warrior, "Week Warrior",
        "Maintained a habit for 7 consecutive days!"⟩
      (by decide)⟩

theorem mixedHabits_award :
    check_consistency_badges 1 (30 * 86400) mixedHabits []
      = [⟨1, BadgeType.consistency_king, "Consistency King",
          "Achieved 90% completion rate for 30 days!"⟩] := by
  have hrate : completion_rate_30d (30 * 86400) mixedHabits
      = (28 : Rat) / 30 * 100 := by
    rw [completion_rate_30d, if_pos]
    · rw [show total_checkins_30d (30 * 86400) mixedHabits = 28 from by decide,
        show total_expected mixedHabits = 30 from by decide]
      norm_num
    · decide
  rw [check_consistency_badges, if_pos (by decide), if_pos]
  constructor
  · rw [hrate]; norm_num
  · simp

/-- C8 counterexample: with one active habit having no recent check-ins and
one inactive habit having 28 recent check-ins, the code awards
CONSISTENCY_KING (its numerator counts the inactive habit's check-ins:
28/30 ≈ 93%), while the completion rate over the user's active habits is 0
— so the award does not happen "exactly when" the active-habit rate is at
least 90. -/
theorem c8_counterexample :
    check_consistency_badges 1 (30 * 86400) mixedHabits [] ≠ [] ∧
    completion_rate_30d_active_only (30 * 86400) mixedHabits < 90 := by
  constructor
  · rw [mixedHabits_award]; simp
  · rw [completion_rate_30d_active_only]
    rw [if_pos (by decide)]
    rw [show mixedHabits.filter (fun h => h.is_active)
        = [⟨1, 1, true, 10, []⟩] from by decide]
    norm_num

/-- C8 amended: the consistency family awards only CONSISTENCY_KING, and
awards it exactly when the user has at least one active habit, the rate
`total_checkins_in_last_30_days / (active_habit_count * 30) * 100` is at
least 90 — where the check-in count ranges over ALL the user's habits,
active and inactive alike — and CONSISTENCY_KING is not already held. -/
theorem c8_consistency_characterization (user_id : Nat) (nowTs : Int)
    (habits : List Habit) (existing : List BadgeType) :
    (∀ b ∈ check_consistency_badges user_id nowTs habits existing,
      b.badge_type = BadgeType.consistency_king) ∧
    ((∃ b ∈ check_consistency_badges user_id nowTs habits existing,
        b.badge_type = BadgeType.consistency_king) ↔
      (habits.filter (fun h => h.is_active) ≠ [] ∧
        90 ≤ completion_rate_30d nowTs habits ∧
        BadgeType.consistency_king ∉ existing)) := by
  rw [check_consistency_badges]
  split_ifs with h1 h2 <;> simp_all

theorem c8_consistency_characterization_witness :
    (⟨1, BadgeType.consistency_king, "Consistency King",
        "Achieved 90% completion rate for 30 days!"⟩ : UserBadge).badge_type
      = BadgeType.consistency_king :=
  (c8_consistency_characterization 1 (30 * 86400) mixedHabits []).1 _
    (by rw [mixedHabits_award]; simp)

theorem check_and_award_badges_user (st : AppState) (nowTs : Int) :
    ((check_and_award_badges st nowTs).2).user = st.user := rfl

theorem calculate_streak_eq_zero_of_no_today (today : Int) (l : List CheckIn)
    (h : ∀ c ∈ l, dateOf c.check_in_date ≠ today) :
    calculate_streak today l = 0 := by
  by_cases hne : l = []
  · simp [calculate_streak, hne]
  · rw [calculate_streak, if_neg hne, streakAux_eq_streakAuxD]
    cases hds : datesOf (sortDesc l) with
    | nil => rfl
    | cons d rest =>
        have hd : d ≠ today := by
          have hmem : d ∈ datesOf (sortDesc l) := by rw [hds]; exact List.mem_cons_self d rest
          simp only [datesOf, List.mem_map] at hmem
          obtain ⟨c, hc, rfl⟩ := hmem
          exact h c ((List.perm_insertionSort tsDesc l).mem_iff.mp hc)
        simp only [streakAuxD]
        rw [if_neg (by simpa using hd)]

/-- C9: when the habit already has a check-in on the current calendar date,
a second check-in attempt fails with the 400 conflict error and the state
is unchanged: no check-in is added and neither points nor badges are
awarded by the failed attempt. -/
theorem c9_duplicate_checkin_conflict (st : AppState) (habit_id : Nat)
    (nowTs : Int) (habit : Habit)
    (hfind : st.habits.find?
      (fun h => h.id == habit_id && h.user_id == st.user.id) = some habit)
    (hdup : habit.check_ins.any
      (fun ci => dateOf ci.check_in_date == dateOf nowTs) = true) :
    mark_habit_as_done st habit_id nowTs
      = .error ⟨400, "Already checked in today for this habit"⟩ ∧
    resultState st (mark_habit_as_done st habit_id nowTs) = st := by
  have herr : mark_habit_as_done st habit_id nowTs
      = .error ⟨400, "Already checked in today for this habit"⟩ := by
    rw [mark_habit_as_done, hfind]
    dsimp only
    rw [if_pos hdup]
  exact ⟨herr, by rw [herr]; rfl⟩

theorem c9_duplicate_checkin_conflict_witness :
    mark_habit_as_done ⟨⟨1, 0, 1⟩, [⟨1, 1, true, 10, [⟨0, 10⟩]⟩], []⟩ 1 30
      = .error ⟨400, "Already checked in today for this habit"⟩ ∧
    resultState ⟨⟨1, 0, 1⟩, [⟨1, 1, true, 10, [⟨0, 10⟩]⟩], []⟩
      (mark_habit_as_done ⟨⟨1, 0, 1⟩, [⟨1, 1, true, 10, [⟨0, 10⟩]⟩], []⟩ 1 30)
      = ⟨⟨1, 0, 1⟩, [⟨1, 1, true, 10, [⟨0, 10⟩]⟩], []⟩ :=
  c9_duplicate_checkin_conflict ⟨⟨1, 0, 1⟩, [⟨1, 1, true, 10, [⟨0, 10⟩]⟩], []⟩
    1 30 ⟨1, 1, true, 10, [⟨0, 10⟩]⟩ (by decide) (by decide)

/-- C4: on every successful check-in, the returned points equal
`points_per_completion + min(streak_before // 7, 5) * 5` where the streak
is computed over the habit's check-ins before today's check-in is added,
the streak bonus never exceeds 25, and the user's total points grow by
exactly the earned points. Moreover, on every successful check-in that
pre-check-in streak is 0 (a non-zero streak would require a check-in dated
today, which the duplicate guard has excluded), so the earned points equal
`points_per_completion` exactly. -/
theorem c4_checkin_points (st : AppState) (habit_id : Nat) (nowTs : Int)
    (habit : Habit)
    (hfind : st.habits.find?
      (fun h => h.id == habit_id && h.user_id == st.user.id) = some habit)
    (hnodup : habit.check_ins.any
      (fun ci => dateOf ci.check_in_date == dateOf nowTs) = false) :
    ∃ st2 : AppState,
      mark_habit_as_done st habit_id nowTs = .ok (st2,
        habit.points_per_completion +
          ((min (calculate_streak (dateOf nowTs) habit.check_ins / 7) 5 * 5
            : Nat) : Int)) ∧
      (min (calculate_streak (dateOf nowTs) habit.check_ins / 7) 5 * 5
        : Nat) ≤ 25 ∧
      calculate_streak (dateOf nowTs) habit.check_ins = 0 ∧
      st2.user.total_points = st.user.total_points
        + habit.points_per_completion := by
  have hzero : calculate_streak (dateOf nowTs) habit.check_ins = 0 := by
    apply calculate_streak_eq_zero_of_no_today
    intro c hc
    have := List.any_eq_false.mp hnodup c hc
    simpa using this
  rw [mark_habit_as_done, hfind]
  dsimp only
  rw [if_neg (by simp [hnodup])]
  refine ⟨_, rfl, by omega, hzero, ?_⟩
  rw [check_and_award_badges_user, award_points, if_pos rfl]
  dsimp only
  rw [hzero]
  norm_num

theorem c4_checkin_points_witness :
    ∃ st2 : AppState,
      mark_habit_as_done ⟨⟨1, 0, 1⟩, [⟨1, 1, true, 20, []⟩], []⟩ 1 0 = .ok (st2,
        (⟨1, 1, true, 20, []⟩ : Habit).points_per_completion +
          ((min (calculate_streak (dateOf 0)
            (⟨1, 1, true, 20, []⟩ : Habit).check_ins / 7) 5 * 5 : Nat) : Int)) ∧
      (min (calculate_streak (dateOf 0)
        (⟨1, 1, true, 20, []⟩ : Habit).check_ins / 7) 5 * 5 : Nat) ≤ 25 ∧
      calculate_streak (dateOf 0) (⟨1, 1, true, 20, []⟩ : Habit).check_ins = 0 ∧
      st2.user.total_points = (0 : Int)
        + (⟨1, 1, true, 20, []⟩ : Habit).points_per_completion :=
  c4_checkin_points ⟨⟨1, 0, 1⟩, [⟨1, 1, true, 20, []⟩], []⟩ 1 0
    ⟨1, 1, true, 20, []⟩ (by decide) (by decide)

